import Mathlib

/-!
# Verification of the Google Ads audit script (src/audit.js)

A shallow embedding of the result-collection, routing, aggregation and
report-writing core of the audit script, together with theorems checking the
specification claims against it.

Modelling conventions, stated once here:

* A result row `[category, item, status, details, recommendation]` (the
  `rowData` array built in `addResult`) is a `Row` of five strings.
* The JavaScript objects `ALL_RESULTS` (category buckets keyed by sheet name)
  and the spreadsheet (rows below the header per sheet) are association lists
  `List (String × List Row)`; a fresh key is appended at the end, matching
  JavaScript object key insertion order.
* Money amounts (`budget.getAmount()`, `getCpc()`) are modelled as `Nat` and
  `Number.prototype.toFixed(2)` on such an integral amount as `natFixed2`.
* Entity ids (`campaign.getId()`, `adGroup.getId()`) are modelled by their
  decimal string rendering; they are only compared for equality and
  concatenated into map keys by the script.
* A data-source accessor that may throw is an `Except String` value carried by
  the input data; `Except.error e` is the accessor call raising `e`.
* Apostrophes and braces inside string literals from the source are written
  with the escapes `\x27`, `\x7b`, `\x7d`.
-/

/-- One finding row, the `rowData = [category, item, status, details,
recommendation]` array built in `addResult` (src/audit.js:235). -/
structure Row where
  category : String
  item : String
  status : String
  details : String
  recommendation : String
deriving DecidableEq

/-- `SHEET_NAMES.OVERVIEW` (src/audit.js:47). -/
def SHEET_OVERVIEW : String := "Overview"

/-- `SHEET_NAMES.PERFORMANCE` (src/audit.js:48). -/
def SHEET_PERFORMANCE : String := "Performance Summary"

/-- `SHEET_NAMES.STRUCTURE_SETTINGS` (src/audit.js:49). -/
def SHEET_STRUCTURE_SETTINGS : String := "Structure & Settings"

/-- `SHEET_NAMES.KEYWORDS_ADGROUPS` (src/audit.js:50). -/
def SHEET_KEYWORDS_ADGROUPS : String := "Keywords & AdGroups"

/-- `SHEET_NAMES.ADS_EXTENSIONS` (src/audit.js:51). -/
def SHEET_ADS_EXTENSIONS : String := "Ads & Extensions"

/-- `SHEET_NAMES.MANUAL_CHECKS` (src/audit.js:52). -/
def SHEET_MANUAL_CHECKS : String := "Opportunities & Manual Checks"

/-- `Object.values(SHEET_NAMES)`, the required sheets provisioned by
`initializeSpreadsheet` (src/audit.js:135). -/
def sheetNamesList : List String :=
  [SHEET_OVERVIEW, SHEET_PERFORMANCE, SHEET_STRUCTURE_SETTINGS,
   SHEET_KEYWORDS_ADGROUPS, SHEET_ADS_EXTENSIONS, SHEET_MANUAL_CHECKS]

/-- The five detail sheets, i.e. every sheet except `Overview`. -/
def detailSheetNames : List String :=
  [SHEET_PERFORMANCE, SHEET_STRUCTURE_SETTINGS, SHEET_KEYWORDS_ADGROUPS,
   SHEET_ADS_EXTENSIONS, SHEET_MANUAL_CHECKS]

/-- The category labels that appear as `case` labels of the `switch` in
`getSheetNameForCategory` (src/audit.js:197-218). -/
def mappedCategories : List String :=
  ["Account Settings", "Account Structure", "Keywords", "Ad Groups",
   "Quality Score", "Ad Copy", "Ad Extensions (Assets)", "Performance Metrics",
   "Bidding Strategies", "Campaign Optimization", "Conversion Tracking",
   "Landing Pages", "Audience Targeting", "Automation & Tools",
   "Competitive Analysis", "Reporting & Insights"]

/-- `getSheetNameForCategory` (src/audit.js:196-223): the `switch` over the
category label, with the grouped `case` fallthroughs rendered as disjunctions
and the `default` branch returning the Manual Checks sheet. -/
def getSheetNameForCategory (category : String) : String :=
  if category == "Account Settings" || category == "Account Structure" then
    SHEET_STRUCTURE_SETTINGS
  else if category == "Keywords" || category == "Ad Groups" ||
      category == "Quality Score" then
    SHEET_KEYWORDS_ADGROUPS
  else if category == "Ad Copy" || category == "Ad Extensions (Assets)" then
    SHEET_ADS_EXTENSIONS
  else if category == "Performance Metrics" || category == "Bidding Strategies" ||
      category == "Campaign Optimization" then
    SHEET_PERFORMANCE
  else if category == "Conversion Tracking" || category == "Landing Pages" ||
      category == "Audience Targeting" || category == "Automation & Tools" ||
      category == "Competitive Analysis" || category == "Reporting & Insights" then
    SHEET_MANUAL_CHECKS
  else
    SHEET_MANUAL_CHECKS

/-- Association-list lookup, the JavaScript `obj[key]` read (with `none` for a
missing key). -/
def assocLookup {α : Type} : List (String × α) → String → Option α
  | [], _ => none
  | (k, v) :: rest, key => if k == key then some v else assocLookup rest key

/-- `if (!ALL_RESULTS[sheetName]) ALL_RESULTS[sheetName] = [];
ALL_RESULTS[sheetName].push(rowData);` (src/audit.js:239-242): append a row to
the named bucket, creating the bucket (at the end of the key order) on first
use. -/
def pushToBucket : List (String × List Row) → String → Row → List (String × List Row)
  | [], name, row => [(name, [row])]
  | (k, v) :: rest, name, row =>
    if k == name then (k, v ++ [row]) :: rest
    else (k, v) :: pushToBucket rest name row

/-- The mutable collector state: `ALL_RESULTS` and `CRITICAL_ISSUES`
(src/audit.js:42-43). -/
structure AuditState where
  allResults : List (String × List Row)
  criticalIssues : List Row
deriving DecidableEq

/-- `addResult` (src/audit.js:234-251): route the row to its sheet bucket and,
when the status is `"Fail"`, also append it to `CRITICAL_ISSUES`.  The
`Logger.log` side effect is outside the model. -/
def addResult (category item status details recommendation : String)
    (s : AuditState) : AuditState :=
  let rowData : Row := ⟨category, item, status, details, recommendation⟩
  let sheetName := getSheetNameForCategory category
  { allResults := pushToBucket s.allResults sheetName rowData
    criticalIssues :=
      if status == "Fail" then s.criticalIssues ++ [rowData]
      else s.criticalIssues }

/-- The collector state right after `initializeSpreadsheet`: every required
sheet has an (empty) bucket (`ALL_RESULTS[sheetName] = []`, src/audit.js:171)
and `CRITICAL_ISSUES` is the initial empty array (src/audit.js:43). -/
def initializedResults : AuditState :=
  { allResults := sheetNamesList.map (fun n => (n, []))
    criticalIssues := [] }

/-- The argument tuple of one `addResult` call. -/
structure Call where
  category : String
  item : String
  status : String
  details : String
  recommendation : String
deriving DecidableEq

/-- The row that `addResult` builds for a call. -/
def Call.row (c : Call) : Row :=
  ⟨c.category, c.item, c.status, c.details, c.recommendation⟩

/-- Apply one `addResult` call to the collector state. -/
def applyCall (s : AuditState) (c : Call) : AuditState :=
  addResult c.category c.item c.status c.details c.recommendation s

/-- Run a sequence of `addResult` calls in emission order. -/
def runCalls (calls : List Call) (s : AuditState) : AuditState :=
  calls.foldl applyCall s

/-- Count the rows of a bucket carrying a given status (`row[2] === status`,
as scanned by `populateOverviewSheet`, src/audit.js:293-296). -/
def countStatus (status : String) (rows : List Row) : Nat :=
  (rows.filter (fun r => r.status == status)).length

/-- Count the rows carrying a given checklist item label. -/
def countItem (item : String) (rows : List Row) : Nat :=
  (rows.filter (fun r => r.item == item)).length

/-- `var sheetOrder = [...]` (src/audit.js:280-286): the fixed priority order
of the per-category summary in the Overview sheet. -/
def sheetOrder : List String :=
  [SHEET_PERFORMANCE, SHEET_STRUCTURE_SETTINGS, SHEET_KEYWORDS_ADGROUPS,
   SHEET_ADS_EXTENSIONS, SHEET_MANUAL_CHECKS]

/-- `categoryFails` for one sheet in `populateOverviewSheet`
(src/audit.js:288-296); a sheet with no bucket is skipped, contributing 0. -/
def bucketFails (s : AuditState) (sheetName : String) : Nat :=
  match assocLookup s.allResults sheetName with
  | none => 0
  | some rows => countStatus "Fail" rows

/-- `categoryWarns` for one sheet in `populateOverviewSheet`
(src/audit.js:288-296). -/
def bucketWarns (s : AuditState) (sheetName : String) : Nat :=
  match assocLookup s.allResults sheetName with
  | none => 0
  | some rows => countStatus "Warn" rows

/-- `failCount` as accumulated over `sheetOrder` by `populateOverviewSheet`
(src/audit.js:269-302); reported as "Total Critical Issues (Fail)". -/
def overviewFailCount (s : AuditState) : Nat :=
  (sheetOrder.map (bucketFails s)).sum

/-- `warnCount` as accumulated over `sheetOrder` by `populateOverviewSheet`;
reported as "Total Warnings (Warn)". -/
def overviewWarnCount (s : AuditState) : Nat :=
  (sheetOrder.map (bucketWarns s)).sum

/-- The per-category issue rows of the Overview summary
(src/audit.js:288-313): the first pass stores `issueCounts[sheetName]` only
for buckets with a Fail or a Warn, the second pass walks `sheetOrder` again
and appends one row per stored entry.  The composition is this
filter-then-map. -/
def overviewIssueRows (s : AuditState) : List (String × Nat × Nat) :=
  (sheetOrder.filter (fun n => bucketFails s n > 0 || bucketWarns s n > 0)).map
    (fun n => (n, bucketFails s n, bucketWarns s n))

/-- Total number of `"Fail"` rows across every bucket of `ALL_RESULTS`. -/
def totalFailRows (s : AuditState) : Nat :=
  (s.allResults.map (fun p => countStatus "Fail" p.2)).sum

/-! ## Orchestration (`main`, src/audit.js:59-100) -/

/-- The outcome of running one audit module's `try` body: it either completes
in a final collector state, or throws after having recorded some findings
(the state at the moment of the throw is kept, as JavaScript `try`/`catch`
keeps side effects performed before the exception). -/
inductive ModuleOutcome where
  | completes (s : AuditState)
  | throws (s : AuditState) (msg : String)

/-- One audit module: its category label and its `try` body. -/
structure ModuleSpec where
  category : String
  body : AuditState → ModuleOutcome

/-- The module-boundary `try { ... } catch (e) { addResult(category, "General
Check", "Error", "An error occurred: " + e, "Investigate the error."); }`
shared by the audit modules (e.g. src/audit.js:469-471). -/
def runModule (m : ModuleSpec) (s : AuditState) : AuditState :=
  match m.body s with
  | ModuleOutcome.completes s' => s'
  | ModuleOutcome.throws s' e =>
    addResult m.category "General Check" "Error" ("An error occurred: " ++ e)
      "Investigate the error." s'

/-- Run the audit modules in their fixed declared order (src/audit.js:71-90). -/
def runModules (mods : List ModuleSpec) (s : AuditState) : AuditState :=
  mods.foldl (fun s m => runModule m s) s

/-! ## Spreadsheet model (`initializeSpreadsheet`, `writeResultsToSpreadsheet`) -/

/-- Overwrite the rows below the header of a named sheet: clear the old rows
and set the new ones (src/audit.js:374-380).  A sheet that does not exist is
skipped, as `if (!sheet) { ... continue; }` does (src/audit.js:359-362). -/
def setSheetRows : List (String × List Row) → String → List Row → List (String × List Row)
  | [], _, _ => []
  | (k, v) :: rest, name, rows =>
    if k == name then (k, rows) :: rest
    else (k, v) :: setSheetRows rest name rows

/-- One step of sheet provisioning in `initializeSpreadsheet`
(src/audit.js:138-154): insert the required sheet if missing (new sheets start
with no data rows), otherwise clear its content below the header row. -/
def initSheetStep (sheets : List (String × List Row)) (name : String) :
    List (String × List Row) :=
  if (assocLookup sheets name).isSome then setSheetRows sheets name []
  else sheets ++ [(name, [])]

/-- The sheet-provisioning loop of `initializeSpreadsheet`
(src/audit.js:135-172): every required sheet exists afterwards and its rows
below the header are cleared. -/
def initializeSheets (sheets : List (String × List Row)) : List (String × List Row) :=
  sheetNamesList.foldl initSheetStep sheets

/-- `writeResultsToSpreadsheet` (src/audit.js:346-394): for every bucket of
`ALL_RESULTS` except `Overview`, clear the sheet below the header and write
the bucket's rows (an empty bucket only clears, src/audit.js:365-372). -/
def writeResultsToSpreadsheet (allResults : List (String × List Row))
    (sheets : List (String × List Row)) : List (String × List Row) :=
  allResults.foldl
    (fun acc p => if p.1 == SHEET_OVERVIEW then acc else setSheetRows acc p.1 p.2)
    sheets

/-- `initializeSpreadsheet`'s effect on `SPREADSHEET_ID` (src/audit.js:108-189):
on success the id is stored, and the surrounding `catch` nulls it on any
failure (src/audit.js:178-188). -/
def initializeSpreadsheet (outcome : Except String String) : Option String :=
  match outcome with
  | Except.ok id => some id
  | Except.error _ => none

/-- The run report main hands to the spreadsheet: the Overview summary data
computed by `populateOverviewSheet` and the detail sheets written by
`writeResultsToSpreadsheet`. -/
structure RunReport where
  failCount : Nat
  warnCount : Nat
  issueRows : List (String × Nat × Nat)
  criticalSection : List Row
  sheets : List (String × List Row)
deriving DecidableEq

/-- `main` (src/audit.js:59-100): initialize the spreadsheet; if
`SPREADSHEET_ID` is null, return before invoking any audit module
(src/audit.js:64-67); otherwise run every module in order, then populate the
Overview sheet and write the results. -/
def mainRun (spreadsheetId : Option String) (mods : List ModuleSpec)
    (sheets : List (String × List Row)) : Option RunReport :=
  match spreadsheetId with
  | none => none
  | some _ =>
    let sheets0 := initializeSheets sheets
    let final := runModules mods initializedResults
    some { failCount := overviewFailCount final
           warnCount := overviewWarnCount final
           issueRows := overviewIssueRows final
           criticalSection := final.criticalIssues
           sheets := writeResultsToSpreadsheet final.allResults sheets0 }

/-! ## Shared configuration and helpers for the module models -/

/-- `CONFIG.MIN_ADS_PER_ADGROUP` (src/audit.js:23). -/
def CONFIG_MIN_ADS_PER_ADGROUP : Nat := 2

/-- `CONFIG.MAX_KEYWORDS_PER_ADGROUP` (src/audit.js:24). -/
def CONFIG_MAX_KEYWORDS_PER_ADGROUP : Nat := 20

/-- `Number.prototype.toFixed(2)` on an integral amount modelled as `Nat`. -/
def natFixed2 (n : Nat) : String := toString n ++ ".00"

/-- `[A-Z]` character class. -/
def isUpperAZ (c : Char) : Bool := 'A' ≤ c && c ≤ 'Z'

/-- `[A-Za-z0-9]` character class. -/
def isAlnumAZ09 (c : Char) : Bool :=
  ('A' ≤ c && c ≤ 'Z') || ('a' ≤ c && c ≤ 'z') || ('0' ≤ c && c ≤ '9')

/-- `CONFIG.CAMPAIGN_NAMING_CONVENTION_REGEX.test(name)` for the pattern
`^[A-Z]\x7b2,\x7d-[A-Za-z0-9]+-.+$` (src/audit.js:27): there are positions
`i < j` with at least two leading uppercase letters before a dash at `i`, a
nonempty alphanumeric block between `i` and the dash at `j`, and at least one
character after `j`. -/
def campaignNameMatches (name : String) : Bool :=
  let l := name.toList
  (List.range l.length).any (fun i =>
    (List.range l.length).any (fun j =>
      decide (2 ≤ i) && decide (i + 1 < j) && l[i]? == some '-' && l[j]? == some '-' &&
      (l.take i).all isUpperAZ && ((l.drop (i + 1)).take (j - (i + 1))).all isAlnumAZ09 &&
      decide (j + 1 < l.length)))

/-- `CONFIG.ADGROUP_NAMING_CONVENTION_REGEX.test(name)` for the pattern
`^[A-Za-z0-9]+_.+$` (src/audit.js:28): some position `i ≥ 1` holds `_`, every
character before it is alphanumeric, and at least one character follows. -/
def adGroupNameMatches (name : String) : Bool :=
  let l := name.toList
  (List.range l.length).any (fun i =>
    decide (0 < i) && l[i]? == some '_' && (l.take i).all isAlnumAZ09 &&
    decide (i + 1 < l.length))

/-! ## `auditAccountStructure` (src/audit.js:479-536) -/

/-- One campaign as seen by `auditAccountStructure`: its name and the
`campaign.getBudget()` accessor, which may throw, return no budget object, or
return a budget whose `getAmount()` is the given amount. -/
structure CampaignStructureData where
  name : String
  getBudget : Except String (Option Nat)

/-- The category label of `auditAccountStructure` (src/audit.js:480). -/
def accountStructureCategory : String := "Account Structure"

/-- The `Warn` finding recorded when `campaign.getBudget()` throws
(src/audit.js:496-503). -/
def budgetWarnRow (name err : String) : Row :=
  ⟨accountStructureCategory, "Budget Check", "Warn",
    "Could not retrieve budget for campaign \x27" ++ name ++ "\x27: " ++ err,
    "Review budget setting manually."⟩

/-- `budgetAmount` after the budget `try`/`catch` (src/audit.js:495-503): the
amount when the accessor returns a budget, `0` when it returns none or throws. -/
def campaignBudgetValue (c : CampaignStructureData) : Nat :=
  match c.getBudget with
  | Except.ok (some amount) => amount
  | Except.ok none => 0
  | Except.error _ => 0

/-- The findings emitted for one campaign in the `auditAccountStructure` loop
(src/audit.js:491-517): the budget-failure `Warn` if the accessor throws, the
naming-convention `Warn` if the name misses the pattern, then the budget
allocation `Info` row. -/
def campaignStructureRows (currency : String) (c : CampaignStructureData) : List Row :=
  (match c.getBudget with
   | Except.error e => [budgetWarnRow c.name e]
   | Except.ok _ => []) ++
  (if campaignNameMatches c.name then []
   else [⟨accountStructureCategory, "Campaign Naming Convention", "Warn",
          "Campaign \x27" ++ c.name ++ "\x27 doesn\x27t match pattern: " ++
            "^[A-Z]\x7b2,\x7d-[A-Za-z0-9]+-.+$",
          "Standardize campaign naming for better organization."⟩]) ++
  [⟨accountStructureCategory, "Budget Allocation", "Info",
    "Campaign \x27" ++ c.name ++ "\x27 Budget: " ++
      natFixed2 (campaignBudgetValue c) ++ " " ++ currency,
    "Ensure budget aligns with campaign priority and performance."⟩]

/-- `campaignsWithPoorNaming` contribution of one campaign. -/
def campaignPoorNaming (c : CampaignStructureData) : Nat :=
  if campaignNameMatches c.name then 0 else 1

/-- The summary findings after the campaign loop (src/audit.js:519-530); the
loop counters `campaignsChecked`, `campaignsWithPoorNaming` and `totalBudget`
are written inline as the length, the poor-naming count and the budget sum of
the campaign list. -/
def accountStructureSummary (currency : String)
    (campaigns : List CampaignStructureData) : List Row :=
  (if 0 < campaigns.length && (campaigns.map campaignPoorNaming).sum == 0 then
    [⟨accountStructureCategory, "Campaign Naming Convention", "Pass",
      "All " ++ toString campaigns.length ++
        " checked campaigns follow the naming convention.",
      "Maintain consistent naming."⟩]
  else if campaigns.length == 0 then
    [⟨accountStructureCategory, "Campaign Naming Convention", "Info",
      "No active/paused campaigns found to check.", "N/A"⟩]
  else []) ++
  [⟨accountStructureCategory, "Total Account Budget", "Info",
    "Sum of daily budgets for checked campaigns: " ++
      natFixed2 ((campaigns.map campaignBudgetValue).sum) ++ " " ++ currency,
    "Verify total budget aligns with overall advertising goals."⟩,
   ⟨accountStructureCategory, "Campaign Organization", "Info",
    "Manual Review Required",
    "Review campaign goals (e.g., Search, Display, Video) and structure (e.g., by product, service, location). Ensure logical grouping."⟩,
   ⟨accountStructureCategory, "Ad Group Theming", "Info",
    "Checked in Ad Groups module.",
    "Ensure ad groups contain tightly themed keywords."⟩,
   ⟨accountStructureCategory, "Overlapping Keywords", "Info",
    "Basic checks in Keywords module.",
    "Perform deeper analysis using Search Terms Report or dedicated tools if needed."⟩]

/-- The full emission trace of `auditAccountStructure` on the given campaign
list (src/audit.js:479-536): the per-campaign loop findings followed by the
summary findings.  The loop counters do not influence the per-campaign
findings, so the loop is the `flatMap` of its body. -/
def auditAccountStructureEmissions (currency : String)
    (campaigns : List CampaignStructureData) : List Row :=
  campaigns.flatMap (campaignStructureRows currency) ++
    accountStructureSummary currency campaigns

/-! ## `auditAdGroups` (src/audit.js:814-897) -/

/-- One ad group as seen by `auditAdGroups`: its name, its campaign's name,
the possibly-throwing `keywords()...totalNumEntities()` and
`ads()...totalNumEntities()` accessors, the campaign channel type and
`isDynamic` flag used by the zero-keyword branch, and the
`bidding().getCpc()` accessor. -/
structure AdGroupAuditData where
  name : String
  campaignName : String
  keywordCount : Except String Nat
  channelType : String
  isDynamic : Bool
  adCount : Except String Nat
  cpcBid : Except String (Option Nat)

/-- The category label of `auditAdGroups` (src/audit.js:815). -/
def adGroupsCategory : String := "Ad Groups"

/-- The keyword-count findings for one ad group (src/audit.js:835-851). -/
def adGroupKeywordCountRows (g : AdGroupAuditData) : List Row :=
  match g.keywordCount with
  | Except.error e =>
    [⟨adGroupsCategory, "Keyword Count Check", "Error",
      "Could not check keyword count for ad group \x27" ++ g.name ++ "\x27: " ++ e,
      "Check permissions."⟩]
  | Except.ok n =>
    if CONFIG_MAX_KEYWORDS_PER_ADGROUP < n then
      [⟨adGroupsCategory, "Keyword Count", "Warn",
        "Ad Group \x27" ++ g.name ++ "\x27 (" ++ g.campaignName ++ ") has " ++
          toString n ++ " keywords (>" ++
          toString CONFIG_MAX_KEYWORDS_PER_ADGROUP ++ ").",
        "Consider splitting into more tightly themed ad groups for better relevance."⟩]
    else if n == 0 then
      if g.channelType != "SEARCH" || !g.isDynamic then
        [⟨adGroupsCategory, "Keyword Count", "Warn",
          "Ad Group \x27" ++ g.name ++ "\x27 (" ++ g.campaignName ++
            ") has 0 enabled keywords.",
          "Add relevant keywords or pause the ad group if it\x27s not needed (and not DSA)."⟩]
      else
        [⟨adGroupsCategory, "Keyword Count", "Info",
          "Ad Group \x27" ++ g.name ++ "\x27 (" ++ g.campaignName ++
            ") is DSA and has 0 keywords.",
          "Expected for DSA ad groups."⟩]
    else []

/-- The ad-count findings for one ad group (src/audit.js:854-864): a `Fail`
when the enabled-ad count is below `CONFIG.MIN_ADS_PER_ADGROUP`, an `Error`
when the accessor throws. -/
def adGroupAdCountRows (g : AdGroupAuditData) : List Row :=
  match g.adCount with
  | Except.error e =>
    [⟨adGroupsCategory, "Ad Count Check", "Error",
      "Could not check ad count for ad group \x27" ++ g.name ++ "\x27: " ++ e,
      "Check permissions."⟩]
  | Except.ok n =>
    if n < CONFIG_MIN_ADS_PER_ADGROUP then
      [⟨adGroupsCategory, "Ad Count", "Fail",
        "Ad Group \x27" ++ g.name ++ "\x27 (" ++ g.campaignName ++ ") has " ++
          toString n ++ " enabled ads (<" ++
          toString CONFIG_MIN_ADS_PER_ADGROUP ++ ").",
        "Create at least " ++ toString CONFIG_MIN_ADS_PER_ADGROUP ++
          " relevant ads per ad group for testing and optimization."⟩]
    else []

/-- The naming-convention finding for one ad group (src/audit.js:868-871). -/
def adGroupNamingRows (g : AdGroupAuditData) : List Row :=
  if adGroupNameMatches g.name then []
  else
    [⟨adGroupsCategory, "Ad Group Naming", "Warn",
      "Ad Group \x27" ++ g.name ++ "\x27 (" ++ g.campaignName ++
        ") doesn\x27t match pattern: ^[A-Za-z0-9]+_.+$",
      "Standardize ad group naming."⟩]

/-- `bid` as displayed (src/audit.js:874-878): `getCpc() || "Managed by
Strategy"` (a zero, null or thrown bid falls back to the string), and a
numeric bid printed with `toFixed(2)`. -/
def adGroupBidText (g : AdGroupAuditData) : String :=
  match g.cpcBid with
  | Except.ok (some n) => if n == 0 then "Managed by Strategy" else natFixed2 n
  | Except.ok none => "Managed by Strategy"
  | Except.error _ => "Managed by Strategy"

/-- The bid `Info` finding for one ad group (src/audit.js:878). -/
def adGroupBidRow (g : AdGroupAuditData) : Row :=
  ⟨adGroupsCategory, "Ad Group Bids", "Info",
    "Ad Group \x27" ++ g.name ++ "\x27 (" ++ g.campaignName ++ ") Bid: " ++
      adGroupBidText g,
    "Ensure bids align with performance goals and bidding strategy."⟩

/-- All findings emitted for one ad group in the loop (src/audit.js:828-881). -/
def adGroupRows (g : AdGroupAuditData) : List Row :=
  adGroupKeywordCountRows g ++ adGroupAdCountRows g ++ adGroupNamingRows g ++
    [adGroupBidRow g]

/-- `adGroupsWithLowAdCount` contribution of one ad group (src/audit.js:858-859). -/
def adGroupLowAdInc (g : AdGroupAuditData) : Nat :=
  match g.adCount with
  | Except.ok n => if n < CONFIG_MIN_ADS_PER_ADGROUP then 1 else 0
  | Except.error _ => 0

/-- `adGroupsWithHighKeywordCount` contribution of one ad group
(src/audit.js:838-839). -/
def adGroupHighKwInc (g : AdGroupAuditData) : Nat :=
  match g.keywordCount with
  | Except.ok n => if CONFIG_MAX_KEYWORDS_PER_ADGROUP < n then 1 else 0
  | Except.error _ => 0

/-- `adGroupsWithPoorNaming` contribution of one ad group (src/audit.js:868-869). -/
def adGroupPoorNamingInc (g : AdGroupAuditData) : Nat :=
  if adGroupNameMatches g.name then 0 else 1

/-- The summary findings after the ad-group loop (src/audit.js:883-891): the
blanket `Pass` roll-ups are emitted only when the respective problem counter
stayed zero, and only when at least one ad group was checked. -/
def adGroupsSummary (adGroups : List AdGroupAuditData) : List Row :=
  (if 0 < adGroups.length then
    (if (adGroups.map adGroupLowAdInc).sum == 0 then
      [⟨adGroupsCategory, "Ad Count", "Pass",
        "All " ++ toString adGroups.length ++
          " checked ad groups have at least " ++
          toString CONFIG_MIN_ADS_PER_ADGROUP ++ " ads.",
        "Continue A/B testing ads."⟩]
    else []) ++
    (if (adGroups.map adGroupHighKwInc).sum == 0 then
      [⟨adGroupsCategory, "Keyword Count", "Pass",
        "All " ++ toString adGroups.length ++
          " checked ad groups have a reasonable number of keywords (<= " ++
          toString CONFIG_MAX_KEYWORDS_PER_ADGROUP ++ ").",
        "Maintain tight keyword themes."⟩]
    else []) ++
    (if (adGroups.map adGroupPoorNamingInc).sum == 0 then
      [⟨adGroupsCategory, "Ad Group Naming", "Pass",
        "All " ++ toString adGroups.length ++
          " checked ad groups follow the naming convention.",
        "Maintain consistent naming."⟩]
    else [])
  else
    [⟨adGroupsCategory, "General Check", "Info",
      "No enabled ad groups found in enabled campaigns.", "N/A"⟩]) ++
  [⟨adGroupsCategory, "Competing Keywords within Ad Group", "Info",
    "Basic duplicate checks in Keywords module.",
    "Manually review keyword themes within ad groups to ensure they aren\x27t competing semantically."⟩]

/-- The full emission trace of `auditAdGroups` on the given ad-group list
(src/audit.js:814-897): the per-ad-group loop findings followed by the
summary findings.  The loop counters do not influence the per-ad-group
findings, so the loop is the `flatMap` of its body. -/
def auditAdGroupsEmissions (adGroups : List AdGroupAuditData) : List Row :=
  adGroups.flatMap adGroupRows ++ adGroupsSummary adGroups

/-! ## Duplicate-keyword detection in `auditKeywords` (src/audit.js:764-772) -/

/-- One enabled keyword in iteration order, as seen by the duplicate check:
the enclosing campaign's id, the enclosing ad group's id, the keyword text
and the match type.  Ids are the decimal renderings of `getId()`. -/
structure KeywordOccurrence where
  campaignId : String
  adGroupId : String
  text : String
  matchType : String
deriving DecidableEq

/-- `var duplicateKey = campaignId + ":" + keywordText + ":" + matchType;`
(src/audit.js:765). -/
def duplicateKey (k : KeywordOccurrence) : String :=
  k.campaignId ++ ":" ++ k.text ++ ":" ++ k.matchType

/-- One iteration of the duplicate check (src/audit.js:764-772): warn when
the key is already stored with a different ad group id, and store the current
ad group id only when the key is not yet present (so the map always keeps the
first ad group seen for a key).  Ad group ids are nonempty decimal strings,
so JavaScript truthiness of the stored id is presence in the map. -/
def duplicateCheckStep (duplicateKeywordMap : List (String × String))
    (k : KeywordOccurrence) : Bool × List (String × String) :=
  let key := duplicateKey k
  match assocLookup duplicateKeywordMap key with
  | some storedAdGroupId => (storedAdGroupId != k.adGroupId, duplicateKeywordMap)
  | none => (false, duplicateKeywordMap ++ [(key, k.adGroupId)])

/-- `duplicateKeywordMap` after scanning a list of keywords. -/
def duplicateMapAfter (duplicateKeywordMap : List (String × String))
    (ks : List KeywordOccurrence) : List (String × String) :=
  ks.foldl (fun m k => (duplicateCheckStep m k).2) duplicateKeywordMap

/-- Scan the keyword stream in iteration order, pairing every occurrence with
whether the cross-ad-group duplicate `Warn` finding is emitted for it. -/
def duplicateScan (duplicateKeywordMap : List (String × String)) :
    List KeywordOccurrence → List (KeywordOccurrence × Bool)
  | [] => []
  | k :: rest =>
    let step := duplicateCheckStep duplicateKeywordMap k
    (k, step.1) :: duplicateScan step.2 rest

/-- Two keyword occurrences with the same (campaign id, keyword text, match
type) triple. -/
def sameTriple (a b : KeywordOccurrence) : Prop :=
  a.campaignId = b.campaignId ∧ a.text = b.text ∧ a.matchType = b.matchType

instance : DecidablePred (fun p : KeywordOccurrence × KeywordOccurrence => sameTriple p.1 p.2) :=
  fun _ => by unfold sameTriple; infer_instance

/-- A string with no `:` character.  Keyword texts, match types (the enum
values `BROAD`, `PHRASE`, `EXACT`) and decimal ids satisfy this in the
script's domain; it makes `duplicateKey` an injective encoding of the triple. -/
def colonFree (s : String) : Prop := ∀ c ∈ s.data, c ≠ ':'

instance (s : String) : Decidable (colonFree s) := by unfold colonFree; infer_instance

/-- The well-formedness of a keyword occurrence used by the duplicate-check
theorem: its key components are colon-free. -/
def KeywordOccurrence.wf (k : KeywordOccurrence) : Prop :=
  colonFree k.campaignId ∧ colonFree k.text ∧ colonFree k.matchType

instance (k : KeywordOccurrence) : Decidable k.wf := by
  unfold KeywordOccurrence.wf; infer_instance

/-! ## Helper lemmas about the collector -/

theorem countStatus_append (status : String) (a b : List Row) :
    countStatus status (a ++ b) = countStatus status a + countStatus status b := by
  simp [countStatus, List.filter_append]

theorem countItem_append (item : String) (a b : List Row) :
    countItem item (a ++ b) = countItem item a + countItem item b := by
  simp [countItem, List.filter_append]

theorem assocLookup_pushToBucket_self (l : List (String × List Row))
    (name : String) (row : Row) :
    assocLookup (pushToBucket l name row) name =
      some ((assocLookup l name).getD [] ++ [row]) := by
  induction l with
  | nil => simp [pushToBucket, assocLookup]
  | cons p rest ih =>
    obtain ⟨k, v⟩ := p
    by_cases h : k == name
    · simp [pushToBucket, assocLookup, h]
    · simp [pushToBucket, assocLookup, h, ih]

theorem assocLookup_pushToBucket_ne (l : List (String × List Row))
    (name n : String) (row : Row) (h : n ≠ name) :
    assocLookup (pushToBucket l name row) n = assocLookup l n := by
  induction l with
  | nil => simp [pushToBucket, assocLookup, Ne.symm h]
  | cons p rest ih =>
    obtain ⟨k, v⟩ := p
    by_cases hk : k == name
    · have hke : k = name := eq_of_beq hk
      subst hke
      simp [pushToBucket, assocLookup, Ne.symm h]
    · by_cases hn : k == n
      · simp [pushToBucket, assocLookup, hk, hn]
      · simp [pushToBucket, assocLookup, hk, hn, ih]

theorem keys_pushToBucket_of_mem (l : List (String × List Row)) (name : String)
    (row : Row) (h : name ∈ l.map Prod.fst) :
    (pushToBucket l name row).map Prod.fst = l.map Prod.fst := by
  induction l with
  | nil => simp at h
  | cons p rest ih =>
    obtain ⟨k, v⟩ := p
    by_cases hk : k == name
    · simp [pushToBucket, hk]
    · have hne : k ≠ name := by simpa using hk
      have hmem : name ∈ rest.map Prod.fst := by
        rcases (by simpa using h) with h' | h'
        · exact absurd h'.symm hne
        · simpa using h'
      simp [pushToBucket, hk, ih hmem]

theorem sumFails_pushToBucket (l : List (String × List Row)) (name : String)
    (row : Row) :
    ((pushToBucket l name row).map (fun p => countStatus "Fail" p.2)).sum =
      (l.map (fun p => countStatus "Fail" p.2)).sum +
        (if row.status == "Fail" then 1 else 0) := by
  induction l with
  | nil =>
    by_cases hs : row.status == "Fail" <;>
      simp [pushToBucket, countStatus, List.filter, hs]
  | cons p rest ih =>
    obtain ⟨k, v⟩ := p
    by_cases hk : k == name
    · simp only [pushToBucket, hk, if_true, List.map_cons, List.sum_cons,
        countStatus_append]
      have : countStatus "Fail" [row] = if row.status == "Fail" then 1 else 0 := by
        by_cases hs : row.status == "Fail" <;> simp [countStatus, List.filter, hs]
      omega
    · simp only [pushToBucket, hk, if_false, Bool.false_eq_true, List.map_cons,
        List.sum_cons, ih]
      omega

theorem totalFailRows_addResult (s : AuditState)
    (category item status details recommendation : String) :
    totalFailRows (addResult category item status details recommendation s) =
      totalFailRows s + (if status == "Fail" then 1 else 0) := by
  simp [totalFailRows, addResult, sumFails_pushToBucket]

theorem criticalIssues_addResult (s : AuditState)
    (category item status details recommendation : String) :
    (addResult category item status details recommendation s).criticalIssues =
      s.criticalIssues ++
        (if status == "Fail" then
          [(⟨category, item, status, details, recommendation⟩ : Row)] else []) := by
  simp only [addResult]
  split <;> simp

/-! ## Routing lemmas (`getSheetNameForCategory`) -/

theorem getSheetNameForCategory_mem (category : String) :
    getSheetNameForCategory category ∈ detailSheetNames := by
  unfold getSheetNameForCategory
  split_ifs <;> decide

theorem getSheetNameForCategory_ne_overview (category : String) :
    getSheetNameForCategory category ≠ SHEET_OVERVIEW := by
  unfold getSheetNameForCategory
  split_ifs <;> decide

theorem getSheetNameForCategory_unmapped (category : String)
    (h : category ∉ mappedCategories) :
    getSheetNameForCategory category = SHEET_MANUAL_CHECKS := by
  unfold getSheetNameForCategory
  split_ifs with h1 h2 h3 h4 h5
  · exfalso
    simp only [Bool.or_eq_true, beq_iff_eq] at h1
    rcases h1 with rfl | rfl <;> exact h (by decide)
  · exfalso
    simp only [Bool.or_eq_true, beq_iff_eq] at h2
    rcases h2 with (rfl | rfl) | rfl <;> exact h (by decide)
  · exfalso
    simp only [Bool.or_eq_true, beq_iff_eq] at h3
    rcases h3 with rfl | rfl <;> exact h (by decide)
  · exfalso
    simp only [Bool.or_eq_true, beq_iff_eq] at h4
    rcases h4 with (rfl | rfl) | rfl <;> exact h (by decide)
  · exfalso
    simp only [Bool.or_eq_true, beq_iff_eq] at h5
    rcases h5 with ((((rfl | rfl) | rfl) | rfl) | rfl) | rfl <;> exact h (by decide)
  · rfl

theorem addResult_bucket_self (s : AuditState)
    (category item status details recommendation : String) :
    assocLookup (addResult category item status details recommendation s).allResults
        (getSheetNameForCategory category) =
      some ((assocLookup s.allResults (getSheetNameForCategory category)).getD [] ++
        [⟨category, item, status, details, recommendation⟩]) := by
  simp [addResult, assocLookup_pushToBucket_self]

theorem addResult_bucket_other (s : AuditState)
    (category item status details recommendation n : String)
    (h : n ≠ getSheetNameForCategory category) :
    assocLookup (addResult category item status details recommendation s).allResults n =
      assocLookup s.allResults n := by
  simp [addResult, assocLookup_pushToBucket_ne _ _ _ _ h]

/-- C3: Routing totality and never-failing record.  `getSheetNameForCategory`
is total and always returns one of the five fixed detail-sheet names; a
category label outside the mapping table resolves to the Manual Checks
fallback sheet; and `addResult` never fails and never drops a finding — it
appends the row to the routed bucket (creating the bucket on first use, the
`getD []`) and leaves every other bucket untouched. -/
theorem routing_totality_and_recording
    (category item status details recommendation : String) (s : AuditState) :
    getSheetNameForCategory category ∈ detailSheetNames ∧
    (category ∉ mappedCategories →
      getSheetNameForCategory category = SHEET_MANUAL_CHECKS) ∧
    assocLookup (addResult category item status details recommendation s).allResults
        (getSheetNameForCategory category) =
      some ((assocLookup s.allResults (getSheetNameForCategory category)).getD [] ++
        [⟨category, item, status, details, recommendation⟩]) ∧
    (∀ n, n ≠ getSheetNameForCategory category →
      assocLookup (addResult category item status details recommendation s).allResults n =
        assocLookup s.allResults n) := by
  refine ⟨getSheetNameForCategory_mem category,
    getSheetNameForCategory_unmapped category,
    addResult_bucket_self s category item status details recommendation,
    fun n hn => addResult_bucket_other s category item status details recommendation n hn⟩

/-- Witness for C3 at a concrete unmapped category: the label
`"Mystery Area"` is not in the mapping table, routes to the Manual Checks
sheet, and one `addResult` call on the initialized collector appends exactly
the expected row there while leaving the `Overview` bucket untouched. -/
theorem routing_totality_and_recording_witness :
    getSheetNameForCategory "Mystery Area" ∈ detailSheetNames ∧
    getSheetNameForCategory "Mystery Area" = SHEET_MANUAL_CHECKS ∧
    assocLookup (addResult "Mystery Area" "Item" "Info" "D" "R" initializedResults).allResults
        (getSheetNameForCategory "Mystery Area") =
      some ((assocLookup initializedResults.allResults
          (getSheetNameForCategory "Mystery Area")).getD [] ++
        [⟨"Mystery Area", "Item", "Info", "D", "R"⟩]) ∧
    assocLookup (addResult "Mystery Area" "Item" "Info" "D" "R" initializedResults).allResults
        SHEET_OVERVIEW = assocLookup initializedResults.allResults SHEET_OVERVIEW := by
  have h := routing_totality_and_recording "Mystery Area" "Item" "Info" "D" "R"
    initializedResults
  exact ⟨h.1, h.2.1 (by decide), h.2.2.1, h.2.2.2 SHEET_OVERVIEW (by decide)⟩

/-! ## Collector invariants over call sequences (C1, C4) -/

theorem keys_applyCall (s : AuditState) (c : Call)
    (h : s.allResults.map Prod.fst = sheetNamesList) :
    (applyCall s c).allResults.map Prod.fst = sheetNamesList := by
  have hsub : ∀ x ∈ detailSheetNames, x ∈ sheetNamesList := by decide
  have hmem : getSheetNameForCategory c.category ∈ s.allResults.map Prod.fst := by
    rw [h]
    exact hsub _ (getSheetNameForCategory_mem c.category)
  simp only [applyCall, addResult]
  rw [keys_pushToBucket_of_mem _ _ _ hmem, h]

theorem keys_runCalls (calls : List Call) :
    ∀ s : AuditState, s.allResults.map Prod.fst = sheetNamesList →
      (runCalls calls s).allResults.map Prod.fst = sheetNamesList := by
  induction calls with
  | nil => intro s h; exact h
  | cons c rest ih =>
    intro s h
    simp only [runCalls, List.foldl_cons]
    exact ih (applyCall s c) (keys_applyCall s c h)

theorem overview_bucket_applyCall (s : AuditState) (c : Call) :
    assocLookup (applyCall s c).allResults SHEET_OVERVIEW =
      assocLookup s.allResults SHEET_OVERVIEW :=
  addResult_bucket_other s _ _ _ _ _ SHEET_OVERVIEW
    (Ne.symm (getSheetNameForCategory_ne_overview c.category))

theorem overview_bucket_runCalls (calls : List Call) :
    ∀ s : AuditState, assocLookup s.allResults SHEET_OVERVIEW = some [] →
      assocLookup (runCalls calls s).allResults SHEET_OVERVIEW = some [] := by
  induction calls with
  | nil => intro s h; exact h
  | cons c rest ih =>
    intro s h
    simp only [runCalls, List.foldl_cons]
    exact ih (applyCall s c) ((overview_bucket_applyCall s c).trans h)

theorem totalFailRows_runCalls (calls : List Call) :
    ∀ s : AuditState, totalFailRows (runCalls calls s) =
      totalFailRows s + countStatus "Fail" (calls.map Call.row) := by
  induction calls with
  | nil => intro s; simp [runCalls, countStatus]
  | cons c rest ih =>
    intro s
    simp only [runCalls, List.foldl_cons] at ih ⊢
    rw [ih (applyCall s c)]
    have hstep := totalFailRows_addResult s c.category c.item c.status c.details
      c.recommendation
    simp only [applyCall] at *
    rw [hstep]
    by_cases hs : c.status == "Fail" <;>
      simp [countStatus, List.filter_cons, Call.row, hs] <;> omega

theorem criticalIssues_runCalls (calls : List Call) :
    ∀ s : AuditState, (runCalls calls s).criticalIssues =
      s.criticalIssues ++ (calls.map Call.row).filter (fun r => r.status == "Fail") := by
  induction calls with
  | nil => intro s; simp [runCalls]
  | cons c rest ih =>
    intro s
    simp only [runCalls, List.foldl_cons] at ih ⊢
    rw [ih (applyCall s c)]
    have hstep := criticalIssues_addResult s c.category c.item c.status c.details
      c.recommendation
    simp only [applyCall] at *
    rw [hstep]
    by_cases hs : c.status == "Fail" <;>
      simp [List.filter_cons, Call.row, hs, List.append_assoc]

theorem allResults_shape (l : List (String × List Row))
    (h : l.map Prod.fst = sheetNamesList) :
    ∃ b0 b1 b2 b3 b4 b5, l = [(SHEET_OVERVIEW, b0), (SHEET_PERFORMANCE, b1),
      (SHEET_STRUCTURE_SETTINGS, b2), (SHEET_KEYWORDS_ADGROUPS, b3),
      (SHEET_ADS_EXTENSIONS, b4), (SHEET_MANUAL_CHECKS, b5)] := by
  rcases l with _ | ⟨⟨k0, b0⟩, l⟩
  · simp [sheetNamesList] at h
  rcases l with _ | ⟨⟨k1, b1⟩, l⟩
  · simp [sheetNamesList] at h
  rcases l with _ | ⟨⟨k2, b2⟩, l⟩
  · simp [sheetNamesList] at h
  rcases l with _ | ⟨⟨k3, b3⟩, l⟩
  · simp [sheetNamesList] at h
  rcases l with _ | ⟨⟨k4, b4⟩, l⟩
  · simp [sheetNamesList] at h
  rcases l with _ | ⟨⟨k5, b5⟩, l⟩
  · simp [sheetNamesList] at h
  rcases l with _ | ⟨⟨k6, b6⟩, l⟩
  · have h6 : k0 = SHEET_OVERVIEW ∧ k1 = SHEET_PERFORMANCE ∧
        k2 = SHEET_STRUCTURE_SETTINGS ∧ k3 = SHEET_KEYWORDS_ADGROUPS ∧
        k4 = SHEET_ADS_EXTENSIONS ∧ k5 = SHEET_MANUAL_CHECKS := by
      simpa [sheetNamesList] using h
    obtain ⟨rfl, rfl, rfl, rfl, rfl, rfl⟩ := h6
    exact ⟨b0, b1, b2, b3, b4, b5, rfl⟩
  · simp [sheetNamesList] at h

theorem overview_eq_total_of_keys (s : AuditState)
    (hkeys : s.allResults.map Prod.fst = sheetNamesList)
    (hov : assocLookup s.allResults SHEET_OVERVIEW = some []) :
    overviewFailCount s = totalFailRows s := by
  obtain ⟨b0, b1, b2, b3, b4, b5, hl⟩ := allResults_shape s.allResults hkeys
  have hb0 : b0 = [] := by
    rw [hl] at hov
    simpa [assocLookup] using hov
  subst hb0
  simp [overviewFailCount, totalFailRows, sheetOrder, bucketFails, hl, assocLookup,
    SHEET_OVERVIEW, SHEET_PERFORMANCE, SHEET_STRUCTURE_SETTINGS,
    SHEET_KEYWORDS_ADGROUPS, SHEET_ADS_EXTENSIONS, SHEET_MANUAL_CHECKS, countStatus]

/-- C1: Aggregation consistency.  For every run (any sequence of `addResult`
calls from the initialized collector), the `failCount` that
`populateOverviewSheet` reports as "Total Critical Issues (Fail)" equals the
number of recorded findings with status `"Fail"` across all buckets of
`ALL_RESULTS`, and also equals the length of `CRITICAL_ISSUES`. -/
theorem aggregation_consistency (calls : List Call) :
    overviewFailCount (runCalls calls initializedResults) =
      totalFailRows (runCalls calls initializedResults) ∧
    totalFailRows (runCalls calls initializedResults) =
      (runCalls calls initializedResults).criticalIssues.length := by
  constructor
  · apply overview_eq_total_of_keys
    · exact keys_runCalls calls initializedResults (by rfl)
    · exact overview_bucket_runCalls calls initializedResults (by rfl)
  · rw [totalFailRows_runCalls, criticalIssues_runCalls]
    simp [initializedResults, totalFailRows, countStatus, sheetNamesList]

theorem mem_bucket_applyCall (s : AuditState) (c : Call) (r : Row) (n : String)
    (h : r ∈ (assocLookup s.allResults n).getD []) :
    r ∈ (assocLookup (applyCall s c).allResults n).getD [] := by
  by_cases hn : n = getSheetNameForCategory c.category
  · subst hn
    simp only [applyCall]
    rw [addResult_bucket_self]
    simp only [Option.getD_some]
    exact List.mem_append_left _ h
  · simp only [applyCall]
    rw [addResult_bucket_other _ _ _ _ _ _ _ hn]
    exact h

theorem mem_bucket_runCalls (calls : List Call) :
    ∀ (s : AuditState) (r : Row) (n : String),
      r ∈ (assocLookup s.allResults n).getD [] →
      r ∈ (assocLookup (runCalls calls s).allResults n).getD [] := by
  induction calls with
  | nil => intro s r n h; exact h
  | cons c rest ih =>
    intro s r n h
    simp only [runCalls, List.foldl_cons]
    exact ih (applyCall s c) r n (mem_bucket_applyCall s c r n h)

theorem mem_bucket_of_call (calls : List Call) :
    ∀ (s : AuditState), ∀ c ∈ calls,
      Call.row c ∈ (assocLookup (runCalls calls s).allResults
        (getSheetNameForCategory c.category)).getD [] := by
  induction calls with
  | nil => intro s c hc; simp at hc
  | cons c' rest ih =>
    intro s c hc
    simp only [runCalls, List.foldl_cons]
    rcases List.mem_cons.mp hc with rfl | hc
    · apply mem_bucket_runCalls
      simp only [applyCall]
      rw [addResult_bucket_self]
      simp only [Option.getD_some]
      exact List.mem_append_right _ (List.mem_singleton.mpr rfl)
    · exact ih (applyCall s c') c hc

/-- C4: Critical Digest invariant.  After any sequence of `addResult` calls
from the initialized collector, `CRITICAL_ISSUES` is exactly the ordered
subsequence of all recorded findings whose status is `"Fail"`, in emission
order, across all categories; and every `"Fail"` finding also appears in its
own category's bucket. -/
theorem critical_digest_invariant (calls : List Call) :
    (runCalls calls initializedResults).criticalIssues =
      (calls.map Call.row).filter (fun r => r.status == "Fail") ∧
    ∀ c ∈ calls, c.status = "Fail" →
      Call.row c ∈ (assocLookup (runCalls calls initializedResults).allResults
        (getSheetNameForCategory c.category)).getD [] := by
  constructor
  · rw [criticalIssues_runCalls]
    simp [initializedResults]
  · intro c hc _
    exact mem_bucket_of_call calls initializedResults c hc

/-- Witness for C4 at a concrete call sequence: one `"Fail"` call and one
`"Pass"` call leave exactly the `"Fail"` row in `CRITICAL_ISSUES`, and that
row is present in its routed bucket. -/
theorem critical_digest_invariant_witness :
    (runCalls [⟨"Keywords", "Low Quality Score", "Fail", "d", "r"⟩,
        ⟨"Ad Copy", "Policy Compliance", "Pass", "d2", "r2"⟩]
      initializedResults).criticalIssues =
      (([⟨"Keywords", "Low Quality Score", "Fail", "d", "r"⟩,
         ⟨"Ad Copy", "Policy Compliance", "Pass", "d2", "r2"⟩] : List Call).map
            Call.row).filter (fun r => r.status == "Fail") ∧
    Call.row ⟨"Keywords", "Low Quality Score", "Fail", "d", "r"⟩ ∈
      (assocLookup (runCalls [⟨"Keywords", "Low Quality Score", "Fail", "d", "r"⟩,
          ⟨"Ad Copy", "Policy Compliance", "Pass", "d2", "r2"⟩]
        initializedResults).allResults
        (getSheetNameForCategory "Keywords")).getD [] := by
  have h := critical_digest_invariant
    [⟨"Keywords", "Low Quality Score", "Fail", "d", "r"⟩,
     ⟨"Ad Copy", "Policy Compliance", "Pass", "d2", "r2"⟩]
  exact ⟨h.1, h.2 _ (by decide) rfl⟩

/-! ## Overview summary ordering and omission (C7) -/

theorem sum_map_filter_eq (p : String → Bool) (f : String → Nat)
    (l : List String) :
    (∀ n ∈ l, p n = false → f n = 0) →
      ((l.filter p).map f).sum = (l.map f).sum := by
  induction l with
  | nil => intro _; rfl
  | cons a l ih =>
    intro h
    by_cases hp : p a
    · simp [List.filter_cons, hp, ih (fun n hn hf => h n (List.mem_cons_of_mem a hn) hf)]
    · have hf : f a = 0 := h a (List.mem_cons_self a l) (by simpa using hp)
      simp [List.filter_cons, hp, hf,
        ih (fun n hn hf => h n (List.mem_cons_of_mem a hn) hf)]

/-- C7: Summary ordering and empty-bucket omission.  The per-category
issue-count rows of the Overview summary appear in the fixed priority order
`sheetOrder` = [Performance Summary, Structure & Settings, Keywords &
AdGroups, Ads & Extensions, Opportunities & Manual Checks]; a bucket with
zero `Fail` and zero `Warn` findings is omitted from those rows; and the
account-wide totals equal the sums over just the listed categories, so an
omitted bucket contributes zero. -/
theorem overview_ordering_and_omission (s : AuditState) :
    ((overviewIssueRows s).map Prod.fst).Sublist sheetOrder ∧
    (∀ n, bucketFails s n = 0 → bucketWarns s n = 0 →
      n ∉ (overviewIssueRows s).map Prod.fst) ∧
    overviewFailCount s = ((overviewIssueRows s).map (fun p => p.2.1)).sum ∧
    overviewWarnCount s = ((overviewIssueRows s).map (fun p => p.2.2)).sum := by
  have hfst : (overviewIssueRows s).map Prod.fst =
      sheetOrder.filter (fun n => bucketFails s n > 0 || bucketWarns s n > 0) := by
    rw [overviewIssueRows, List.map_map]
    exact List.map_id _
  refine ⟨?_, ?_, ?_, ?_⟩
  · rw [hfst]
    exact List.filter_sublist _
  · intro n h1 h2 hmem
    rw [hfst] at hmem
    have := (List.mem_filter.mp hmem).2
    simp [h1, h2] at this
  · have hmapf : (overviewIssueRows s).map (fun p => p.2.1) =
        (sheetOrder.filter (fun n => bucketFails s n > 0 || bucketWarns s n > 0)).map
          (bucketFails s) := by
      rw [overviewIssueRows, List.map_map]
      rfl
    rw [hmapf, overviewFailCount]
    exact (sum_map_filter_eq _ _ _ (fun n _ hf => by
      simp only [Bool.or_eq_false_iff, decide_eq_false_iff_not, not_lt,
        Nat.le_zero] at hf
      exact hf.1)).symm
  · have hmapw : (overviewIssueRows s).map (fun p => p.2.2) =
        (sheetOrder.filter (fun n => bucketFails s n > 0 || bucketWarns s n > 0)).map
          (bucketWarns s) := by
      rw [overviewIssueRows, List.map_map]
      rfl
    rw [hmapw, overviewWarnCount]
    exact (sum_map_filter_eq _ _ _ (fun n _ hf => by
      simp only [Bool.or_eq_false_iff, decide_eq_false_iff_not, not_lt,
        Nat.le_zero] at hf
      exact hf.2)).symm

/-- Witness for C7 at the initialized collector: all buckets are empty, so
the Performance Summary category (fails 0, warns 0) is omitted from the
issue rows, and the totals agree with the (empty) issue-row sums. -/
theorem overview_ordering_and_omission_witness :
    ((overviewIssueRows initializedResults).map Prod.fst).Sublist sheetOrder ∧
    SHEET_PERFORMANCE ∉ (overviewIssueRows initializedResults).map Prod.fst ∧
    overviewFailCount initializedResults =
      ((overviewIssueRows initializedResults).map (fun p => p.2.1)).sum := by
  have h := overview_ordering_and_omission initializedResults
  exact ⟨h.1, h.2.1 SHEET_PERFORMANCE (by decide) (by decide), h.2.2.1⟩

/-! ## Orchestration theorems (C2, C6) -/

theorem runModules_append (l1 l2 : List ModuleSpec) (s : AuditState) :
    runModules (l1 ++ l2) s = runModules l2 (runModules l1 s) := by
  simp [runModules, List.foldl_append]

theorem runModules_cons (m : ModuleSpec) (mods : List ModuleSpec) (s : AuditState) :
    runModules (m :: mods) s = runModules mods (runModule m s) := rfl

/-- C2: Module-failure isolation.  If a module's `try` body throws — with any
findings already recorded by the partial run kept — the module-boundary
`catch` records exactly one `Error`-severity finding tagged with that
module's category, every subsequent module still runs on the resulting
state, and `main` still produces the report. -/
theorem module_failure_isolation (spreadsheetId : String)
    (mods1 mods2 : List ModuleSpec) (cat : String)
    (body : AuditState → ModuleOutcome) (t : AuditState) (e : String)
    (sheets : List (String × List Row))
    (h : body (runModules mods1 initializedResults) = ModuleOutcome.throws t e) :
    runModules (mods1 ++ ⟨cat, body⟩ :: mods2) initializedResults =
      runModules mods2 (addResult cat "General Check" "Error"
        ("An error occurred: " ++ e) "Investigate the error." t) ∧
    (mainRun (some spreadsheetId) (mods1 ++ ⟨cat, body⟩ :: mods2) sheets).isSome =
      true := by
  constructor
  · rw [runModules_append, runModules_cons]
    have h1 : runModule ⟨cat, body⟩ (runModules mods1 initializedResults) =
        addResult cat "General Check" "Error" ("An error occurred: " ++ e)
          "Investigate the error." t := by
      simp [runModule, h]
    rw [h1]
  · rfl

/-- Witness for C2 at a concrete failing module: a single module whose body
throws immediately is caught, leaving exactly the one `Error` finding run
through the remaining (empty) module list, and the report is produced. -/
theorem module_failure_isolation_witness :
    runModules [⟨"Keywords", fun s => ModuleOutcome.throws s "boom"⟩]
        initializedResults =
      runModules [] (addResult "Keywords" "General Check" "Error"
        ("An error occurred: " ++ "boom") "Investigate the error."
        initializedResults) ∧
    (mainRun (some "sheet-id")
        [⟨"Keywords", fun s => ModuleOutcome.throws s "boom"⟩] []).isSome = true := by
  have h := module_failure_isolation "sheet-id" [] [] "Keywords"
    (fun s => ModuleOutcome.throws s "boom") initializedResults "boom" [] rfl
  exact ⟨h.1, h.2⟩

/-- C6: Single fatal precondition.  `main` produces no report exactly when
`initializeSpreadsheet` failed (it nulls `SPREADSHEET_ID`, and `main` returns
before invoking any module — the aborted result does not depend on the module
list at all); with a successfully initialized spreadsheet the run always
completes and produces the report, whatever the modules do. -/
theorem single_fatal_precondition (outcome : Except String String)
    (mods mods' : List ModuleSpec) (sheets : List (String × List Row))
    (spreadsheetId : String) :
    ((mainRun (initializeSpreadsheet outcome) mods sheets).isSome ↔
      ∃ id, outcome = Except.ok id) ∧
    mainRun none mods sheets = mainRun none mods' sheets ∧
    (mainRun (some spreadsheetId) mods sheets).isSome = true := by
  refine ⟨?_, rfl, rfl⟩
  cases outcome with
  | ok id => simp [initializeSpreadsheet, mainRun]
  | error e => simp [initializeSpreadsheet, mainRun]

/-! ## Spreadsheet write lemmas and the re-run overwrite theorem (C8) -/

theorem assocLookup_append {α : Type} (l1 l2 : List (String × α)) (key : String) :
    assocLookup (l1 ++ l2) key =
      match assocLookup l1 key with
      | some v => some v
      | none => assocLookup l2 key := by
  induction l1 with
  | nil => simp [assocLookup]
  | cons p rest ih =>
    obtain ⟨k, v⟩ := p
    by_cases hk : k == key <;> simp [assocLookup, hk, ih]

theorem setSheetRows_lookup_self (l : List (String × List Row)) (n : String)
    (rows : List Row) (h : (assocLookup l n).isSome) :
    assocLookup (setSheetRows l n rows) n = some rows := by
  induction l with
  | nil => simp [assocLookup] at h
  | cons p rest ih =>
    obtain ⟨k, v⟩ := p
    by_cases hk : k == n
    · simp [setSheetRows, assocLookup, hk]
    · simp only [assocLookup, hk, Bool.false_eq_true, if_false] at h
      simp [setSheetRows, assocLookup, hk, ih h]

theorem setSheetRows_lookup_ne (l : List (String × List Row)) (n m : String)
    (rows : List Row) (h : m ≠ n) :
    assocLookup (setSheetRows l n rows) m = assocLookup l m := by
  induction l with
  | nil => simp [setSheetRows]
  | cons p rest ih =>
    obtain ⟨k, v⟩ := p
    by_cases hk : k == n
    · have hke : k = n := eq_of_beq hk
      subst hke
      simp [setSheetRows, assocLookup, Ne.symm h]
    · by_cases hm : k == m <;> simp [setSheetRows, assocLookup, hk, hm, ih]

theorem setSheetRows_lookup_isSome (l : List (String × List Row)) (n m : String)
    (rows : List Row) :
    (assocLookup (setSheetRows l n rows) m).isSome = (assocLookup l m).isSome := by
  by_cases h : m = n
  · subst h
    by_cases hp : (assocLookup l m).isSome
    · rw [setSheetRows_lookup_self l m rows hp, hp]
      rfl
    · have hnone : assocLookup l m = none := by
        cases hl : assocLookup l m
        · rfl
        · rw [hl] at hp
          simp at hp
      clear hp
      induction l with
      | nil => simp [setSheetRows]
      | cons p rest ih =>
        obtain ⟨k, v⟩ := p
        by_cases hk : k == m
        · simp [assocLookup, hk] at hnone
        · simp only [assocLookup, hk, Bool.false_eq_true, if_false] at hnone
          simp [setSheetRows, assocLookup, hk, ih hnone]
  · rw [setSheetRows_lookup_ne l n m rows h]

theorem initSheetStep_lookup_self (acc : List (String × List Row)) (n : String) :
    assocLookup (initSheetStep acc n) n = some [] := by
  unfold initSheetStep
  by_cases h : (assocLookup acc n).isSome
  · simp only [h, if_true]
    exact setSheetRows_lookup_self acc n [] h
  · have hnone : assocLookup acc n = none := by
      cases hl : assocLookup acc n
      · rfl
      · rw [hl] at h
        simp at h
    simp only [h, Bool.false_eq_true, if_false]
    rw [assocLookup_append, hnone]
    simp [assocLookup]

theorem initSheetStep_lookup_ne (acc : List (String × List Row)) (n m : String)
    (h : m ≠ n) :
    assocLookup (initSheetStep acc n) m = assocLookup acc m := by
  unfold initSheetStep
  by_cases hp : (assocLookup acc n).isSome
  · simp only [hp, if_true]
    exact setSheetRows_lookup_ne acc n m [] h
  · simp only [hp, Bool.false_eq_true, if_false]
    rw [assocLookup_append]
    cases hl : assocLookup acc m
    · simp [assocLookup, Ne.symm h]
    · rfl

theorem foldl_initStep_preserve (l : List String) :
    ∀ (acc : List (String × List Row)) (n : String), n ∉ l →
      assocLookup acc n = some [] →
      assocLookup (l.foldl initSheetStep acc) n = some [] := by
  induction l with
  | nil => intro acc n _ h; exact h
  | cons a l ih =>
    intro acc n hn h
    simp only [List.foldl_cons]
    have hna : n ≠ a := fun he => hn (he ▸ List.mem_cons_self a l)
    exact ih _ n (fun hm => hn (List.mem_cons_of_mem a hm))
      ((initSheetStep_lookup_ne acc a n hna).trans h)

theorem foldl_initStep_mem (l : List String) :
    ∀ (acc : List (String × List Row)) (n : String), n ∈ l → l.Nodup →
      assocLookup (l.foldl initSheetStep acc) n = some [] := by
  induction l with
  | nil => intro acc n hn _; simp at hn
  | cons a l ih =>
    intro acc n hn hnodup
    simp only [List.foldl_cons]
    rcases List.mem_cons.mp hn with rfl | hn'
    · exact foldl_initStep_preserve l (initSheetStep acc n) n
        (List.Nodup.not_mem hnodup) (initSheetStep_lookup_self acc n)
    · exact ih _ n hn' (List.Nodup.of_cons hnodup)

theorem initializeSheets_lookup (sheets : List (String × List Row)) (n : String)
    (h : n ∈ sheetNamesList) :
    assocLookup (initializeSheets sheets) n = some [] :=
  foldl_initStep_mem sheetNamesList sheets n h (by decide)

theorem writeResults_lookup_notin (ar : List (String × List Row)) :
    ∀ (sheets : List (String × List Row)) (n : String), n ∉ ar.map Prod.fst →
      assocLookup (writeResultsToSpreadsheet ar sheets) n = assocLookup sheets n := by
  induction ar with
  | nil => intro sheets n _; rfl
  | cons p rest ih =>
    obtain ⟨k, v⟩ := p
    intro sheets n hn
    have hkn : n ≠ k := by
      intro he
      exact hn (he ▸ (by simp))
    simp only [writeResultsToSpreadsheet, List.foldl_cons]
    have hrest : n ∉ rest.map Prod.fst := fun hm => hn (by simp [hm])
    by_cases hov : k == SHEET_OVERVIEW
    · simpa [writeResultsToSpreadsheet, hov] using ih sheets n hrest
    · have := ih (setSheetRows sheets k v) n hrest
      simpa [writeResultsToSpreadsheet, hov,
        setSheetRows_lookup_ne sheets k n v hkn] using this

theorem writeResults_lookup_of_mem (ar : List (String × List Row)) :
    ∀ (sheets : List (String × List Row)) (n : String) (rows : List Row),
      assocLookup ar n = some rows → (ar.map Prod.fst).Nodup →
      n ≠ SHEET_OVERVIEW → (assocLookup sheets n).isSome = true →
      assocLookup (writeResultsToSpreadsheet ar sheets) n = some rows := by
  induction ar with
  | nil => intro sheets n rows h; simp [assocLookup] at h
  | cons p rest ih =>
    obtain ⟨k, v⟩ := p
    intro sheets n rows h hnodup hov hsome
    simp only [writeResultsToSpreadsheet, List.foldl_cons]
    by_cases hk : k == n
    · have hke : k = n := eq_of_beq hk
      subst hke
      simp only [assocLookup, beq_self_eq_true, if_true] at h
      injection h with h
      subst h
      have hkov : (k == SHEET_OVERVIEW) = false := beq_false_of_ne hov
      have hnodup2 : (k :: rest.map Prod.fst).Nodup := by
        simpa only [List.map_cons] using hnodup
      have hnotin : k ∉ rest.map Prod.fst := (List.nodup_cons.mp hnodup2).1
      rw [show (if (k == SHEET_OVERVIEW) = true then sheets
          else setSheetRows sheets k v) = setSheetRows sheets k v by simp [hkov]]
      show assocLookup (writeResultsToSpreadsheet rest (setSheetRows sheets k v)) k =
        some v
      rw [writeResults_lookup_notin rest (setSheetRows sheets k v) k hnotin]
      exact setSheetRows_lookup_self sheets k v hsome
    · have hkn : k ≠ n := fun he => by simp [he] at hk
      simp only [assocLookup, hk, Bool.false_eq_true, if_false] at h
      have hnodup' : (rest.map Prod.fst).Nodup :=
        (List.nodup_cons.mp (by simpa using hnodup)).2
      by_cases hkov : k == SHEET_OVERVIEW
      · rw [show (if (k == SHEET_OVERVIEW) = true then sheets
            else setSheetRows sheets k v) = sheets by simp [hkov]]
        exact ih sheets n rows h hnodup' hov hsome
      · rw [show (if (k == SHEET_OVERVIEW) = true then sheets
            else setSheetRows sheets k v) = setSheetRows sheets k v by simp [hkov]]
        refine ih _ n rows h hnodup' hov ?_
        rw [setSheetRows_lookup_isSome]
        exact hsome

theorem assocLookup_isSome_of_mem_keys {α : Type} (l : List (String × α))
    (n : String) (h : n ∈ l.map Prod.fst) : ∃ v, assocLookup l n = some v := by
  induction l with
  | nil => simp at h
  | cons p rest ih =>
    obtain ⟨k, v⟩ := p
    by_cases hk : k == n
    · exact ⟨v, by simp [assocLookup, hk]⟩
    · have hkn : k ≠ n := fun he => by simp [he] at hk
      have : n ∈ rest.map Prod.fst := by
        rcases (by simpa using h) with h' | h'
        · exact absurd h'.symm hkn
        · simpa using h'
      obtain ⟨w, hw⟩ := ih this
      exact ⟨w, by simp [assocLookup, hk, hw]⟩

/-- One full run's effect on the spreadsheet: provision and clear the sheets
(`initializeSpreadsheet`), record the findings of the run, then write every
non-Overview bucket over the cleared sheets (`writeResultsToSpreadsheet`). -/
def auditRunSheets (calls : List Call) (sheets : List (String × List Row)) :
    List (String × List Row) :=
  writeResultsToSpreadsheet (runCalls calls initializedResults).allResults
    (initializeSheets sheets)

theorem auditRunSheets_lookup (calls : List Call)
    (sheets : List (String × List Row)) (n : String)
    (hn : n ∈ detailSheetNames) :
    assocLookup (auditRunSheets calls sheets) n =
      some ((assocLookup (runCalls calls initializedResults).allResults n).getD []) := by
  have hsub : ∀ x ∈ detailSheetNames, x ∈ sheetNamesList := by decide
  have hnov : ∀ x ∈ detailSheetNames, x ≠ SHEET_OVERVIEW := by decide
  have hkeys : (runCalls calls initializedResults).allResults.map Prod.fst =
      sheetNamesList := keys_runCalls calls initializedResults rfl
  obtain ⟨rows, hrows⟩ := assocLookup_isSome_of_mem_keys
    (runCalls calls initializedResults).allResults n (by rw [hkeys]; exact hsub n hn)
  unfold auditRunSheets
  rw [writeResults_lookup_of_mem _ _ n rows hrows (hkeys ▸ (by decide))
    (hnov n hn) (by rw [initializeSheets_lookup sheets n (hsub n hn)]; rfl)]
  rw [hrows]
  rfl

/-- C8: Re-run overwrite.  Writing the report twice against the same
spreadsheet with two different finding sets leaves, on every detail sheet,
exactly the second run's bucket — each sheet is cleared below the header
before new rows are written, so rows never accumulate across runs: the
doubly-written spreadsheet agrees with a single write of the second run. -/
theorem rerun_overwrite (sheets : List (String × List Row))
    (calls1 calls2 : List Call) (n : String) (hn : n ∈ detailSheetNames) :
    assocLookup (auditRunSheets calls2 (auditRunSheets calls1 sheets)) n =
      some ((assocLookup (runCalls calls2 initializedResults).allResults n).getD []) ∧
    assocLookup (auditRunSheets calls2 (auditRunSheets calls1 sheets)) n =
      assocLookup (auditRunSheets calls2 sheets) n :=
  ⟨auditRunSheets_lookup calls2 (auditRunSheets calls1 sheets) n hn,
   (auditRunSheets_lookup calls2 (auditRunSheets calls1 sheets) n hn).trans
     (auditRunSheets_lookup calls2 sheets n hn).symm⟩

/-- Witness for C8 at a concrete pair of runs: a first run with one Keywords
finding and a second run with a different one leave only the second run's
row on the Keywords & AdGroups sheet. -/
theorem rerun_overwrite_witness :
    assocLookup (auditRunSheets [⟨"Keywords", "B", "Warn", "d2", "r2"⟩]
        (auditRunSheets [⟨"Keywords", "A", "Fail", "d1", "r1"⟩] []))
        SHEET_KEYWORDS_ADGROUPS =
      some ((assocLookup (runCalls [⟨"Keywords", "B", "Warn", "d2", "r2"⟩]
          initializedResults).allResults SHEET_KEYWORDS_ADGROUPS).getD []) ∧
    assocLookup (auditRunSheets [⟨"Keywords", "B", "Warn", "d2", "r2"⟩]
        (auditRunSheets [⟨"Keywords", "A", "Fail", "d1", "r1"⟩] []))
        SHEET_KEYWORDS_ADGROUPS =
      assocLookup (auditRunSheets [⟨"Keywords", "B", "Warn", "d2", "r2"⟩] [])
        SHEET_KEYWORDS_ADGROUPS :=
  rerun_overwrite [] [⟨"Keywords", "A", "Fail", "d1", "r1"⟩]
    [⟨"Keywords", "B", "Warn", "d2", "r2"⟩] SHEET_KEYWORDS_ADGROUPS (by decide)


/-! ## The mixed-population ad-count scenario (C9) -/

theorem mem_adGroupRows_cases (g : AdGroupAuditData) (r : Row)
    (h : r ∈ adGroupRows g) :
    r ∈ adGroupKeywordCountRows g ∨ r ∈ adGroupAdCountRows g ∨
      r ∈ adGroupNamingRows g ∨ r = adGroupBidRow g := by
  unfold adGroupRows at h
  simpa only [List.append_assoc, List.mem_append, List.mem_singleton,
    or_assoc] using h

theorem adGroupKeywordCountRows_item (g : AdGroupAuditData) (r : Row)
    (h : r ∈ adGroupKeywordCountRows g) : r.item ≠ "Ad Count" := by
  unfold adGroupKeywordCountRows at h
  cases hc : g.keywordCount with
  | error e =>
    rw [hc] at h
    simp at h
    subst h
    simp
  | ok n =>
    rw [hc] at h
    dsimp only at h
    by_cases h1 : CONFIG_MAX_KEYWORDS_PER_ADGROUP < n
    · rw [if_pos h1] at h
      simp at h
      subst h
      simp
    · rw [if_neg h1] at h
      by_cases h2 : (n == 0) = true
      · rw [if_pos h2] at h
        by_cases h3 : (g.channelType != "SEARCH" || !g.isDynamic) = true
        · rw [if_pos h3] at h
          simp at h
          subst h
          simp
        · rw [if_neg h3] at h
          simp at h
          subst h
          simp
      · rw [if_neg h2] at h
        simp at h

theorem adGroupNamingRows_item (g : AdGroupAuditData) (r : Row)
    (h : r ∈ adGroupNamingRows g) : r.item ≠ "Ad Count" := by
  unfold adGroupNamingRows at h
  split_ifs at h <;> simp at h
  subst h
  simp

theorem adGroupRows_adCount_status (g : AdGroupAuditData) (r : Row)
    (h : r ∈ adGroupRows g) (hi : r.item = "Ad Count") : r.status = "Fail" := by
  rcases mem_adGroupRows_cases g r h with h1 | h2 | h3 | h4
  · exact absurd hi (adGroupKeywordCountRows_item g r h1)
  · unfold adGroupAdCountRows at h2
    cases hc : g.adCount with
    | error e =>
      rw [hc] at h2
      simp at h2
      subst h2
      simp at hi
    | ok n =>
      rw [hc] at h2
      dsimp only at h2
      by_cases hlt : n < CONFIG_MIN_ADS_PER_ADGROUP
      · rw [if_pos hlt] at h2
        simp at h2
        subst h2
        rfl
      · rw [if_neg hlt] at h2
        simp at h2
  · exact absurd hi (adGroupNamingRows_item g r h3)
  · subst h4
    simp [adGroupBidRow] at hi

theorem adGroupsSummary_adCount_pass (ags : List AdGroupAuditData) (r : Row)
    (h : r ∈ adGroupsSummary ags) (hi : r.item = "Ad Count")
    (hs : r.status = "Pass") : (ags.map adGroupLowAdInc).sum = 0 := by
  unfold adGroupsSummary at h
  by_cases hch : 0 < ags.length
  · rw [if_pos hch] at h
    by_cases hlow : ((ags.map adGroupLowAdInc).sum == 0) = true
    · simpa using hlow
    · exfalso
      rw [if_neg hlow] at h
      simp only [List.nil_append, List.append_assoc, List.mem_append,
        List.mem_singleton] at h
      rcases h with hB | hC | hComp
      · split_ifs at hB <;> simp at hB
        subst hB
        simp at hi
      · split_ifs at hC <;> simp at hC
        subst hC
        simp at hi
      · subst hComp
        simp at hi
  · exfalso
    rw [if_neg hch] at h
    simp only [List.mem_append, List.mem_singleton] at h
    rcases h with h | h <;> (subst h; simp at hi)

theorem low_sum_zero_min_ads (ags : List AdGroupAuditData)
    (hz : (ags.map adGroupLowAdInc).sum = 0) :
    ∀ g ∈ ags, ∀ n, g.adCount = Except.ok n →
      CONFIG_MIN_ADS_PER_ADGROUP ≤ n := by
  intro g hg n hn
  have hg0 : adGroupLowAdInc g = 0 :=
    List.sum_eq_zero_iff.mp hz _ (List.mem_map_of_mem adGroupLowAdInc hg)
  have hg0' : (if n < CONFIG_MIN_ADS_PER_ADGROUP then 1 else 0) = 0 := by
    unfold adGroupLowAdInc at hg0
    rw [hn] at hg0
    exact hg0
  by_cases hlt : n < CONFIG_MIN_ADS_PER_ADGROUP
  · rw [if_pos hlt] at hg0'
    omega
  · omega

/-- C9: Mixed-population roll-up scenario.  With the minimum-ads threshold
`CONFIG.MIN_ADS_PER_ADGROUP = 2`, an input of exactly one ad group with 1
enabled ad and one ad group with 3 enabled ads makes `auditAdGroups` emit
exactly one `Fail` finding for the "Ad Count" check — naming the 1-ad group
— and no blanket `Pass` roll-up for it; in general, a `Pass` "Ad Count"
roll-up appears only when every checked ad group meets the minimum. -/
theorem min_ads_rollup_scenario :
    (auditAdGroupsEmissions
        [⟨"General_One", "US-Brand-Search", Except.ok 5, "SEARCH", false,
          Except.ok 1, Except.ok none⟩,
         ⟨"General_Two", "US-Brand-Search", Except.ok 5, "SEARCH", false,
          Except.ok 3, Except.ok none⟩]).filter
        (fun r => r.item == "Ad Count" && r.status == "Fail") =
      [⟨"Ad Groups", "Ad Count", "Fail",
        "Ad Group \x27General_One\x27 (US-Brand-Search) has 1 enabled ads (<2).",
        "Create at least 2 relevant ads per ad group for testing and optimization."⟩] ∧
    (auditAdGroupsEmissions
        [⟨"General_One", "US-Brand-Search", Except.ok 5, "SEARCH", false,
          Except.ok 1, Except.ok none⟩,
         ⟨"General_Two", "US-Brand-Search", Except.ok 5, "SEARCH", false,
          Except.ok 3, Except.ok none⟩]).filter
        (fun r => r.item == "Ad Count" && r.status == "Pass") = [] ∧
    (∀ (ags : List AdGroupAuditData) (r : Row), r ∈ auditAdGroupsEmissions ags →
      r.item = "Ad Count" → r.status = "Pass" →
      ∀ g ∈ ags, ∀ n, g.adCount = Except.ok n →
        CONFIG_MIN_ADS_PER_ADGROUP ≤ n) := by
  refine ⟨by decide, by decide, ?_⟩
  intro ags r hmem hi hs
  apply low_sum_zero_min_ads
  unfold auditAdGroupsEmissions at hmem
  rcases List.mem_append.mp hmem with hin | hin
  · exfalso
    obtain ⟨g, _, hrg⟩ := List.mem_flatMap.mp hin
    have := adGroupRows_adCount_status g r hrg hi
    rw [hs] at this
    simp at this
  · exact adGroupsSummary_adCount_pass ags r hin hi hs

/-- Witness for C9's general roll-up clause at a concrete input: for the
single 3-ad group, the `Pass` "Ad Count" roll-up is in the emissions, so the
theorem yields that its ad count meets the minimum. -/
theorem min_ads_rollup_scenario_witness : CONFIG_MIN_ADS_PER_ADGROUP ≤ 3 :=
  min_ads_rollup_scenario.2.2
    [⟨"General_Two", "US-Brand-Search", Except.ok 5, "SEARCH", false,
      Except.ok 3, Except.ok none⟩]
    ⟨"Ad Groups", "Ad Count", "Pass", "All 1 checked ad groups have at least 2 ads.",
      "Continue A/B testing ads."⟩
    (by decide) rfl rfl
    ⟨"General_Two", "US-Brand-Search", Except.ok 5, "SEARCH", false,
      Except.ok 3, Except.ok none⟩
    (List.mem_singleton.mpr rfl) 3 rfl

/-! ## Partial-failure containment in `auditAccountStructure` (C5) -/

theorem campaignStructureRows_error (currency name e : String) :
    campaignStructureRows currency ⟨name, Except.error e⟩ =
      budgetWarnRow name e ::
        campaignStructureRows currency ⟨name, Except.ok none⟩ := rfl

theorem accountStructureSummary_error_ok (currency : String)
    (pre post : List CampaignStructureData) (name e : String) :
    accountStructureSummary currency (pre ++ ⟨name, Except.error e⟩ :: post) =
      accountStructureSummary currency (pre ++ ⟨name, Except.ok none⟩ :: post) := by
  unfold accountStructureSummary
  simp [List.map_append, List.sum_append, List.length_append,
    campaignPoorNaming, campaignBudgetValue]

theorem campaignStructureRows_budgetCheck_zero (currency : String)
    (c : CampaignStructureData) (h : ∀ msg, c.getBudget ≠ Except.error msg) :
    countItem "Budget Check" (campaignStructureRows currency c) = 0 := by
  unfold campaignStructureRows
  cases hb : c.getBudget with
  | error msg => exact absurd hb (h msg)
  | ok o =>
    by_cases hm : campaignNameMatches c.name <;>
      simp [hm, countItem, List.filter]

theorem countItem_flatMap_zero (item : String)
    (f : CampaignStructureData → List Row) (l : List CampaignStructureData)
    (h : ∀ c ∈ l, countItem item (f c) = 0) :
    countItem item (l.flatMap f) = 0 := by
  induction l with
  | nil => rfl
  | cons c l ih =>
    rw [List.flatMap_cons, countItem_append, h c (List.mem_cons_self c l),
      ih (fun x hx => h x (List.mem_cons_of_mem c hx))]

theorem accountStructureSummary_budgetCheck_zero (currency : String)
    (l : List CampaignStructureData) :
    countItem "Budget Check" (accountStructureSummary currency l) = 0 := by
  unfold accountStructureSummary
  split_ifs <;> simp [countItem, List.filter]

/-- Counterexample to C5 as stated: with a single campaign whose
`getBudget()` accessor throws, `auditAccountStructure` records the failure —
exactly one "Budget Check" finding — but with severity `Warn`
(src/audit.js:502), so the report contains zero `Error`-severity findings
where the claim demands exactly one. -/
theorem partial_failure_severity_counterexample :
    countStatus "Error" (auditAccountStructureEmissions "USD"
      [⟨"US-Brand-Search", Except.error "boom"⟩]) = 0 ∧
    countItem "Budget Check" (auditAccountStructureEmissions "USD"
      [⟨"US-Brand-Search", Except.error "boom"⟩]) = 1 ∧
    countStatus "Warn" (auditAccountStructureEmissions "USD"
      [⟨"US-Brand-Search", Except.error "boom"⟩]) = 1 := by
  refine ⟨by decide, by decide, by decide⟩

/-- C5 (amended): Partial-failure containment in `auditAccountStructure`.
When exactly one campaign's budget accessor throws and every other campaign's
accessor succeeds, the emitted findings are exactly those of the run where
that accessor returns no budget, with one extra `Warn`-severity "Budget
Check" finding (naming the campaign) inserted at the failing campaign's
position; the failing accessor never prevents the naming-convention check for
that campaign or the processing of any other campaign, and the whole run has
exactly one "Budget Check" finding. -/
theorem budget_failure_containment (currency : String)
    (pre post : List CampaignStructureData) (name e : String)
    (hpre : ∀ c ∈ pre, ∀ msg, c.getBudget ≠ Except.error msg)
    (hpost : ∀ c ∈ post, ∀ msg, c.getBudget ≠ Except.error msg) :
    auditAccountStructureEmissions currency
        (pre ++ ⟨name, Except.error e⟩ :: post) =
      (auditAccountStructureEmissions currency
          (pre ++ ⟨name, Except.ok none⟩ :: post)).take
        (pre.flatMap (campaignStructureRows currency)).length ++
      budgetWarnRow name e ::
        (auditAccountStructureEmissions currency
            (pre ++ ⟨name, Except.ok none⟩ :: post)).drop
          (pre.flatMap (campaignStructureRows currency)).length ∧
    countItem "Budget Check" (auditAccountStructureEmissions currency
      (pre ++ ⟨name, Except.error e⟩ :: post)) = 1 ∧
    countItem "Budget Check" (auditAccountStructureEmissions currency
      (pre ++ ⟨name, Except.ok none⟩ :: post)) = 0 := by
  have hokrows : countItem "Budget Check"
      (campaignStructureRows currency ⟨name, Except.ok none⟩) = 0 :=
    campaignStructureRows_budgetCheck_zero currency _ (fun msg h => by simp at h)
  have hdecomp : ∀ (x : CampaignStructureData),
      auditAccountStructureEmissions currency (pre ++ x :: post) =
        pre.flatMap (campaignStructureRows currency) ++
          (campaignStructureRows currency x ++
            (post.flatMap (campaignStructureRows currency) ++
              accountStructureSummary currency (pre ++ x :: post))) := by
    intro x
    unfold auditAccountStructureEmissions
    simp [List.flatMap_append, List.flatMap_cons, List.append_assoc]
  constructor
  · rw [hdecomp, hdecomp, campaignStructureRows_error,
      accountStructureSummary_error_ok currency pre post name e,
      List.take_left, List.drop_left]
    rfl
  · constructor
    · rw [hdecomp, campaignStructureRows_error,
        accountStructureSummary_error_ok currency pre post name e]
      rw [countItem_append, countItem_flatMap_zero _ _ _
        (fun c hc => campaignStructureRows_budgetCheck_zero currency c (hpre c hc))]
      rw [show countItem "Budget Check" (budgetWarnRow name e ::
          campaignStructureRows currency ⟨name, Except.ok none⟩ ++
          (post.flatMap (campaignStructureRows currency) ++
            accountStructureSummary currency
              (pre ++ ⟨name, Except.ok none⟩ :: post))) =
        countItem "Budget Check" (budgetWarnRow name e ::
          campaignStructureRows currency ⟨name, Except.ok none⟩) +
        (countItem "Budget Check" (post.flatMap (campaignStructureRows currency)) +
          countItem "Budget Check" (accountStructureSummary currency
            (pre ++ ⟨name, Except.ok none⟩ :: post))) from by
          rw [← countItem_append, ← countItem_append]]
      rw [countItem_flatMap_zero _ _ _
        (fun c hc => campaignStructureRows_budgetCheck_zero currency c (hpost c hc)),
        accountStructureSummary_budgetCheck_zero]
      have : countItem "Budget Check" (budgetWarnRow name e ::
          campaignStructureRows currency ⟨name, Except.ok none⟩) =
          1 + countItem "Budget Check"
            (campaignStructureRows currency ⟨name, Except.ok none⟩) := by
        rw [show budgetWarnRow name e ::
            campaignStructureRows currency ⟨name, Except.ok none⟩ =
          [budgetWarnRow name e] ++
            campaignStructureRows currency ⟨name, Except.ok none⟩ from rfl]
        rw [countItem_append]
        rfl
      rw [this, hokrows]
    · rw [hdecomp]
      rw [countItem_append, countItem_append, countItem_append,
        countItem_flatMap_zero _ _ _
          (fun c hc => campaignStructureRows_budgetCheck_zero currency c (hpre c hc)),
        countItem_flatMap_zero _ _ _
          (fun c hc => campaignStructureRows_budgetCheck_zero currency c (hpost c hc)),
        accountStructureSummary_budgetCheck_zero, hokrows]

/-- Witness for the amended C5 at a concrete input: one campaign whose budget
accessor throws yields exactly one "Budget Check" finding, and the clean run
yields none. -/
theorem budget_failure_containment_witness :
    countItem "Budget Check" (auditAccountStructureEmissions "USD"
      [⟨"US-Brand-Search", Except.error "boom"⟩]) = 1 ∧
    countItem "Budget Check" (auditAccountStructureEmissions "USD"
      [⟨"US-Brand-Search", Except.ok none⟩]) = 0 := by
  have h := budget_failure_containment "USD" [] [] "US-Brand-Search" "boom"
    (fun c hc => absurd hc (List.not_mem_nil c))
    (fun c hc => absurd hc (List.not_mem_nil c))
  exact ⟨h.2.1, h.2.2⟩

/-! ## Duplicate-keyword semantics (C10) -/

theorem append_colon_inj (a₁ : List Char) :
    ∀ (a₂ b₁ b₂ : List Char), (∀ c ∈ a₁, c ≠ ':') → (∀ c ∈ a₂, c ≠ ':') →
      a₁ ++ ':' :: b₁ = a₂ ++ ':' :: b₂ → a₁ = a₂ ∧ b₁ = b₂ := by
  induction a₁ with
  | nil =>
    intro a₂ b₁ b₂ _ h2 h
    cases a₂ with
    | nil => simpa using h
    | cons x xs =>
      simp at h
      exact absurd h.1.symm (h2 x (by simp))
  | cons x xs ih =>
    intro a₂ b₁ b₂ h1 h2 h
    cases a₂ with
    | nil =>
      simp at h
      exact absurd h.1 (h1 x (by simp))
    | cons y ys =>
      simp only [List.cons_append, List.cons.injEq] at h
      obtain ⟨rfl, h'⟩ := h
      obtain ⟨ha, hb⟩ := ih ys b₁ b₂ (fun c hc => h1 c (by simp [hc]))
        (fun c hc => h2 c (by simp [hc])) h'
      exact ⟨by rw [ha], hb⟩

theorem duplicateKey_data (k : KeywordOccurrence) :
    (duplicateKey k).data =
      k.campaignId.data ++ ':' :: (k.text.data ++ ':' :: k.matchType.data) := by
  have hc : (":" : String).data = [':'] := rfl
  unfold duplicateKey
  simp [String.data_append, hc]

theorem duplicateKey_inj (a b : KeywordOccurrence) (ha : a.wf) (hb : b.wf) :
    duplicateKey a = duplicateKey b ↔ sameTriple a b := by
  constructor
  · intro h
    have hd := congrArg String.data h
    rw [duplicateKey_data, duplicateKey_data] at hd
    obtain ⟨h1, h23⟩ := append_colon_inj _ _ _ _ ha.1 hb.1 hd
    obtain ⟨h2, h3⟩ := append_colon_inj _ _ _ _ ha.2.1 hb.2.1 h23
    exact ⟨String.ext h1, String.ext h2, String.ext h3⟩
  · rintro ⟨h1, h2, h3⟩
    unfold duplicateKey
    rw [h1, h2, h3]

theorem duplicateMapAfter_lookup (ks : List KeywordOccurrence) :
    ∀ (m : List (String × String)) (key : String),
      assocLookup (duplicateMapAfter m ks) key =
        match assocLookup m key with
        | some v => some v
        | none => (ks.find? (fun x => duplicateKey x == key)).map
            KeywordOccurrence.adGroupId := by
  induction ks with
  | nil =>
    intro m key
    cases h : assocLookup m key <;> simp [duplicateMapAfter, h]
  | cons k ks ih =>
    intro m key
    have hstep : duplicateMapAfter m (k :: ks) =
        duplicateMapAfter (duplicateCheckStep m k).2 ks := rfl
    rw [hstep, ih]
    cases hm : assocLookup m (duplicateKey k) with
    | some v =>
      have hm2 : (duplicateCheckStep m k).2 = m := by
        unfold duplicateCheckStep
        dsimp only
        rw [hm]
      rw [hm2]
      cases hq : assocLookup m key with
      | some w => rfl
      | none =>
        have hpk : (duplicateKey k == key) = false := by
          by_cases hb : (duplicateKey k == key) = true
          · have hkeq : duplicateKey k = key := eq_of_beq hb
            rw [hkeq] at hm
            rw [hq] at hm
            cases hm
          · simpa using hb
        simp [List.find?_cons, hpk]
    | none =>
      have hm2 : (duplicateCheckStep m k).2 =
          m ++ [(duplicateKey k, k.adGroupId)] := by
        unfold duplicateCheckStep
        dsimp only
        rw [hm]
      rw [hm2, assocLookup_append]
      cases hq : assocLookup m key with
      | some w => rfl
      | none =>
        by_cases hb : (duplicateKey k == key) = true
        · simp [assocLookup, hb, List.find?_cons]
        · simp [assocLookup, hb, List.find?_cons]

theorem duplicateScan_length (ks : List KeywordOccurrence) :
    ∀ m, (duplicateScan m ks).length = ks.length := by
  induction ks with
  | nil => intro m; rfl
  | cons k ks ih =>
    intro m
    show ((k, (duplicateCheckStep m k).1) ::
      duplicateScan (duplicateCheckStep m k).2 ks).length = (k :: ks).length
    simp [ih]

theorem duplicateScan_append (xs ys : List KeywordOccurrence) :
    ∀ m, duplicateScan m (xs ++ ys) =
      duplicateScan m xs ++ duplicateScan (duplicateMapAfter m xs) ys := by
  induction xs with
  | nil => intro m; rfl
  | cons x xs ih =>
    intro m
    show (x, (duplicateCheckStep m x).1) ::
        duplicateScan (duplicateCheckStep m x).2 (xs ++ ys) = _
    rw [ih]
    rfl

/-- C10: Duplicate-keyword semantics.  In the keyword scan, the occurrence at
position `pre.length` (the keyword `k` arriving after the occurrences `pre`)
is flagged with the cross-ad-group duplicate warning exactly as computed by
`duplicateCheckStep`; that flag is raised only when a keyword with the same
(campaign id, keyword text, match type) triple was previously seen in a
different ad group of the same campaign; the first occurrence of a triple is
never flagged, and when every previous occurrence of the triple was in the
same ad group, the occurrence is not flagged.  The well-formedness hypotheses
(`:`-free ids, texts and match types) hold throughout the script's domain,
where match types are the enum values `BROAD`/`PHRASE`/`EXACT` and ids are
decimal. -/
theorem duplicate_keyword_semantics (pre post : List KeywordOccurrence)
    (k : KeywordOccurrence) (hpre : ∀ x ∈ pre, x.wf) (hk : k.wf) :
    (duplicateScan [] (pre ++ k :: post))[pre.length]? =
      some (k, (duplicateCheckStep (duplicateMapAfter [] pre) k).1) ∧
    ((duplicateCheckStep (duplicateMapAfter [] pre) k).1 = true →
      ∃ x ∈ pre, sameTriple x k ∧ x.adGroupId ≠ k.adGroupId) ∧
    ((∀ x ∈ pre, sameTriple x k → x.adGroupId = k.adGroupId) →
      (duplicateCheckStep (duplicateMapAfter [] pre) k).1 = false) ∧
    ((∀ x ∈ pre, ¬ sameTriple x k) →
      (duplicateCheckStep (duplicateMapAfter [] pre) k).1 = false) := by
  have hlook : assocLookup (duplicateMapAfter [] pre) (duplicateKey k) =
      (pre.find? (fun x => duplicateKey x == duplicateKey k)).map
        KeywordOccurrence.adGroupId := by
    rw [duplicateMapAfter_lookup]
    rfl
  have hflag : (duplicateCheckStep (duplicateMapAfter [] pre) k).1 =
      match pre.find? (fun x => duplicateKey x == duplicateKey k) with
      | some x => x.adGroupId != k.adGroupId
      | none => false := by
    unfold duplicateCheckStep
    dsimp only
    rw [hlook]
    cases pre.find? (fun x => duplicateKey x == duplicateKey k) <;> rfl
  refine ⟨?_, ?_, ?_, ?_⟩
  · rw [duplicateScan_append]
    have hlen : (duplicateScan [] pre).length = pre.length :=
      duplicateScan_length pre []
    rw [List.getElem?_append_right (le_of_eq hlen), hlen, Nat.sub_self]
    rw [show duplicateScan (duplicateMapAfter [] pre) (k :: post) =
      (k, (duplicateCheckStep (duplicateMapAfter [] pre) k).1) ::
        duplicateScan (duplicateCheckStep (duplicateMapAfter [] pre) k).2 post
      from rfl]
    simp
  · intro htrue
    rw [hflag] at htrue
    cases hf : pre.find? (fun x => duplicateKey x == duplicateKey k) with
    | none =>
      rw [hf] at htrue
      simp at htrue
    | some x =>
      rw [hf] at htrue
      have hxmem : x ∈ pre := List.mem_of_find?_eq_some hf
      have hxkey := List.find?_some hf
      have htrip : sameTriple x k :=
        (duplicateKey_inj x k (hpre x hxmem) hk).mp (eq_of_beq hxkey)
      exact ⟨x, hxmem, htrip, by simpa using htrue⟩
  · intro hall
    rw [hflag]
    cases hf : pre.find? (fun x => duplicateKey x == duplicateKey k) with
    | none => rfl
    | some x =>
      have hxmem : x ∈ pre := List.mem_of_find?_eq_some hf
      have hxkey := List.find?_some hf
      have htrip : sameTriple x k :=
        (duplicateKey_inj x k (hpre x hxmem) hk).mp (eq_of_beq hxkey)
      have hag : x.adGroupId = k.adGroupId := hall x hxmem htrip
      simp [hag]
  · intro hnone
    rw [hflag]
    cases hf : pre.find? (fun x => duplicateKey x == duplicateKey k) with
    | none => rfl
    | some x =>
      have hxmem : x ∈ pre := List.mem_of_find?_eq_some hf
      have hxkey := List.find?_some hf
      have htrip : sameTriple x k :=
        (duplicateKey_inj x k (hpre x hxmem) hk).mp (eq_of_beq hxkey)
      exact absurd htrip (hnone x hxmem)

/-- Witness for C10 at a concrete stream: the same keyword text and match
type in the same campaign but a different ad group raises the warning, and
the theorem recovers the earlier conflicting occurrence. -/
theorem duplicate_keyword_semantics_witness :
    ∃ x ∈ [(⟨"1", "10", "running shoes", "EXACT"⟩ : KeywordOccurrence)],
      sameTriple x ⟨"1", "11", "running shoes", "EXACT"⟩ ∧
      x.adGroupId ≠
        (⟨"1", "11", "running shoes", "EXACT"⟩ : KeywordOccurrence).adGroupId := by
  have h := duplicate_keyword_semantics
    [⟨"1", "10", "running shoes", "EXACT"⟩] []
    ⟨"1", "11", "running shoes", "EXACT"⟩
    (by decide) (by decide)
  exact h.2.1 (by decide)
